import Mathlib

/-!
Shallow embedding of the broker-targeting and relationship-scoring engine of
pure-dispatch-landing: the scoring functions (`calculateRelationshipScore` of
api/broker-score.ts, `scoreBrokerTarget` of api/lane-targeting.ts), the
compliance window (`canCallNow` of api/compliance-check.ts) and the follow-up
campaign state machine (send-initial of api/email-send.ts, initiate of
api/voice-call.ts, mark-responded of api/response-track.ts, and the due
follow-up sweep of api/follow-up-check.ts).

Conventions of the embedding:
* Nullable JSON fields become `Option` values.  A JavaScript truthiness test
  `if (x)` on a nullable number is `otruthy` (false for `null`/`undefined`
  and for `0`); on a nullable string it is the negation of `strFalsy`
  (false for `null`/`undefined` and for `""`).
* A comparison `x > k` on a possibly-absent number is `ogt` (false when the
  field is absent, as `undefined > k` is false in JavaScript).
* Timestamps are integers (an abstract count of time units); the "days since
  last contact" quantity the source derives from `last_contact_date` and the
  current clock is taken as an input field `days_since_last_contact`.
* The record store is a list of records; `update ... eq(key, v)` is a `map`
  that rewrites the matching records; supabase's `.single()` yields the row
  when the filter matches exactly one row and `null` otherwise.
* Outbound delivery is an oracle: `none` = the provider accepted the message,
  `some e` = the provider failed with message `e`.  Dry-run (missing
  credentials) reports success, as in the source.
-/

/-- Truthiness of a nullable number: `null`, `undefined` and `0` are falsy. -/
def otruthy (o : Option Nat) : Prop := o.getD 0 ≠ 0

instance (o : Option Nat) : Decidable (otruthy o) := by unfold otruthy; infer_instance

/-- `x > k` on a nullable number: false when absent (for `k ≥ 0`,
`undefined > k` and `0 > k` agree with `getD 0`). -/
def ogt (o : Option Nat) (k : Nat) : Prop := o.getD 0 > k

instance (o : Option Nat) (k : Nat) : Decidable (ogt o k) := by unfold ogt; infer_instance

/-- `x >= k` on a nullable number: false when absent (used only with
`k ≥ 1`, where `undefined >= k` and `0 >= k` agree with `getD 0`). -/
def oge (o : Option Nat) (k : Nat) : Prop := o.getD 0 ≥ k

instance (o : Option Nat) (k : Nat) : Decidable (oge o k) := by unfold oge; infer_instance

/-- Falsiness of a nullable string: `null`, `undefined` and `""` are falsy. -/
def strFalsy : Option String → Bool
  | none => true
  | some s => s.isEmpty

/-- `toUpperCase()` on a string (ASCII, as the region codes are). -/
def upper (s : String) : String := String.mk (s.toList.map Char.toUpper)

/-- Substring test (JavaScript `hay.includes(needle)`). -/
def containsStr (needle hay : String) : Bool :=
  decide (List.IsInfix needle.toList hay.toList)

/-- `outreach_status` values (§3 of the spec; free strings in the source). -/
inductive OStatus where
  | new
  | contacted
  | responded
  | active
  | negotiating
  | blacklisted
deriving DecidableEq

/-- Campaign-step `status` values seen in the source. -/
inductive CStatus where
  | scheduled
  | sent
  | failed
  | replied
  | cancelled
  | delivered
  | opened
deriving DecidableEq

/-- Outreach `method` values. -/
inductive Method where
  | email
  | call
deriving DecidableEq

/-- A broker record as the scoring functions read it (`brokers` /
`broker_leads` row).  Counts are `Option Nat` (nullable non-negative
integers); `authority_status` is a free string. -/
structure Broker where
  credit_score : Option Nat := none
  days_to_pay : Option Nat := none
  response_rate : Option Nat := none
  days_since_last_contact : Option Nat := none
  total_outreach_attempts : Option Nat := none
  total_responses : Option Nat := none
  total_loads_booked : Option Nat := none
  authority_status : Option String := none
  insurance_on_file : Bool := false
  outreach_status : Option OStatus := none
  address_state : Option String := none
  preferred_lanes : List String := []
deriving DecidableEq

/-- The credit tiering of the payment sub-score (api/broker-score.ts lines
37-44): `if (broker.credit_score)` is a truthiness test, so an absent AND a
zero credit score keep the default 15. -/
def paymentBase (b : Broker) : Int :=
  if otruthy b.credit_score then
    if oge b.credit_score 95 then 25
    else if oge b.credit_score 90 then 22
    else if oge b.credit_score 85 then 18
    else if oge b.credit_score 80 then 12
    else 5
  else 15

/-- Payment sub-score of `calculateRelationshipScore`
(api/broker-score.ts lines 36-50): the credit tiering adjusted by
`days_to_pay` when that is truthy (present and nonzero). -/
def paymentScore (b : Broker) : Int :=
  let p := paymentBase b
  if otruthy b.days_to_pay then
    if b.days_to_pay.getD 0 ≤ 7 then min 25 (p + 5)
    else if b.days_to_pay.getD 0 ≤ 15 then min 25 (p + 3)
    else if b.days_to_pay.getD 0 > 45 then max 0 (p - 5)
    else p
  else p

/-- Responsiveness sub-score (api/broker-score.ts lines 52-66).
`broker.total_responses === 0` is a strict comparison: null does not match. -/
def responseScore (b : Broker) : Int :=
  let r : Int :=
    if ogt b.response_rate 80 then 25
    else if ogt b.response_rate 50 then 20
    else if ogt b.response_rate 25 then 15
    else if ogt b.response_rate 0 then 8
    else if ogt b.total_outreach_attempts 3 ∧ b.total_responses = some 0 then 2
    else 10
  match b.days_since_last_contact with
  | none => r
  | some d =>
    if d ≤ 7 then min 25 (r + 5)
    else if d ≤ 30 then min 25 (r + 2)
    else if d > 90 then max 0 (r - 3)
    else r

/-- Revenue sub-score (api/broker-score.ts lines 68-74). -/
def revenueScore (b : Broker) : Int :=
  if oge b.total_loads_booked 10 then 25
  else if oge b.total_loads_booked 5 then 20
  else if oge b.total_loads_booked 2 then 15
  else if oge b.total_loads_booked 1 then 10
  else 0

/-- Reliability sub-score (api/broker-score.ts lines 76-83). -/
def reliabilityScore (b : Broker) : Int :=
  let s : Int := 10
  let s := if b.authority_status == some "active" || b.authority_status == some "ACTIVE" then s + 8 else s
  let s := if b.insurance_on_file then s + 4 else s
  let s := if b.outreach_status == some OStatus.active then s + 3 else s
  let s := if b.outreach_status == some OStatus.blacklisted then 0 else s
  min 25 s

/-- The four labelled sub-scores. -/
structure RelBreakdown where
  payment : Int
  responsiveness : Int
  revenue : Int
  reliability : Int
deriving DecidableEq

/-- `calculateRelationshipScore` (api/broker-score.ts lines 33-87): the four
sub-scores and the total capped at 100. -/
def calculateRelationshipScore (b : Broker) : Int × RelBreakdown :=
  let p := paymentScore b
  let r := responseScore b
  let v := revenueScore b
  let y := reliabilityScore b
  (min 100 (p + r + v + y), ⟨p, r, v, y⟩)

/-- The state-adjacency map `STATE_NEIGHBORS` (api/lane-targeting.ts lines
43-93). -/
def STATE_NEIGHBORS : List (String × List String) :=
  [("NJ", ["NY", "PA", "DE"]),
   ("NY", ["NJ", "PA", "CT", "MA", "VT"]),
   ("PA", ["NJ", "NY", "DE", "MD", "WV", "OH"]),
   ("DE", ["NJ", "PA", "MD"]),
   ("MD", ["PA", "DE", "WV", "VA", "DC"]),
   ("VA", ["MD", "DC", "WV", "KY", "TN", "NC"]),
   ("NC", ["VA", "TN", "SC", "GA"]),
   ("SC", ["NC", "GA"]),
   ("GA", ["SC", "NC", "TN", "AL", "FL"]),
   ("FL", ["GA", "AL"]),
   ("AL", ["TN", "GA", "FL", "MS"]),
   ("MS", ["TN", "AL", "AR", "LA"]),
   ("LA", ["MS", "AR", "TX"]),
   ("TX", ["LA", "AR", "OK", "NM"]),
   ("OK", ["TX", "AR", "MO", "KS", "CO", "NM"]),
   ("AR", ["MO", "TN", "MS", "LA", "TX", "OK"]),
   ("TN", ["KY", "VA", "NC", "GA", "AL", "MS", "AR", "MO"]),
   ("KY", ["OH", "WV", "VA", "TN", "MO", "IL", "IN"]),
   ("WV", ["OH", "PA", "MD", "VA", "KY"]),
   ("OH", ["PA", "WV", "KY", "IN", "MI"]),
   ("MI", ["OH", "IN", "WI"]),
   ("IN", ["OH", "KY", "IL", "MI"]),
   ("IL", ["WI", "IN", "KY", "MO", "IA"]),
   ("WI", ["MI", "IL", "IA", "MN"]),
   ("MN", ["WI", "IA", "ND", "SD"]),
   ("IA", ["MN", "WI", "IL", "MO", "NE", "SD"]),
   ("MO", ["IA", "IL", "KY", "TN", "AR", "OK", "KS", "NE"]),
   ("KS", ["NE", "MO", "OK", "CO"]),
   ("NE", ["SD", "IA", "MO", "KS", "CO", "WY"]),
   ("SD", ["ND", "MN", "IA", "NE", "WY", "MT"]),
   ("ND", ["MN", "SD", "MT"]),
   ("MT", ["ND", "SD", "WY", "ID"]),
   ("WY", ["MT", "SD", "NE", "CO", "UT", "ID"]),
   ("CO", ["WY", "NE", "KS", "OK", "NM", "UT"]),
   ("NM", ["CO", "OK", "TX", "AZ"]),
   ("AZ", ["NM", "UT", "NV", "CA"]),
   ("UT", ["WY", "CO", "NM", "AZ", "NV", "ID"]),
   ("NV", ["OR", "ID", "UT", "AZ", "CA"]),
   ("CA", ["OR", "NV", "AZ"]),
   ("OR", ["WA", "ID", "NV", "CA"]),
   ("WA", ["OR", "ID"]),
   ("ID", ["WA", "OR", "NV", "UT", "WY", "MT"]),
   ("CT", ["NY", "MA", "RI"]),
   ("MA", ["NY", "CT", "RI", "NH", "VT"]),
   ("RI", ["CT", "MA"]),
   ("NH", ["MA", "VT", "ME"]),
   ("VT", ["NY", "MA", "NH"]),
   ("ME", ["NH"]),
   ("DC", ["MD", "VA"])]

/-- `STATE_NEIGHBORS[state]` lookup; absent key yields no neighbours. -/
def neighborsOf (state : String) : List String :=
  ((STATE_NEIGHBORS.find? (fun p => p.fst == state)).map Prod.snd).getD []

/-- Carrier profile fields the targeting path reads. -/
structure Carrier where
  preferred_lanes : List String := []
  home_base_state : Option String := none
deriving DecidableEq

/-- Rule 1 of `scoreBrokerTarget` (api/lane-targeting.ts lines 106-114):
geography — +20 for the carrier's own (upper-cased) state, +10 for a
neighbouring state. -/
def geoTerm (broker : Broker) (carrierState : String) : Int :=
  let brokerState := broker.address_state.map upper
  if brokerState == some carrierState then 20
  else if brokerState.elim false (fun s => (neighborsOf carrierState).contains s) then 10
  else 0

/-- Rule 2 (api/lane-targeting.ts lines 116-127): +10 per carrier-preferred
lane that substring-matches some broker-preferred lane in either containment
direction. -/
def laneTerm (broker : Broker) (carrier : Carrier) : Int :=
  if carrier.preferred_lanes.length > 0 && broker.preferred_lanes.length > 0 then
    let overlap := carrier.preferred_lanes.filter (fun l =>
      broker.preferred_lanes.any (fun bl => containsStr l bl || containsStr bl l))
    if overlap.length > 0 then (overlap.length : Int) * 10 else 0
  else 0

/-- Rule 3 first part (api/lane-targeting.ts lines 130-132): +5 for an
active authority. -/
def authTerm (broker : Broker) : Int :=
  if broker.authority_status == some "ACTIVE" || broker.authority_status == some "active" then 5
  else 0

/-- Rule 4 (api/lane-targeting.ts lines 133-139): `broker.credit_score &&`
is a truthiness guard, so a present zero falls through to neither branch. -/
def creditTerm (broker : Broker) : Int :=
  if otruthy broker.credit_score ∧ oge broker.credit_score 90 then 10
  else if otruthy broker.credit_score ∧ broker.credit_score.getD 0 < 80 then -15
  else 0

/-- Rule 5 (api/lane-targeting.ts lines 141-147): `broker.days_to_pay &&` is
a truthiness guard, so a present zero falls through to neither branch. -/
def payTerm (broker : Broker) : Int :=
  if otruthy broker.days_to_pay ∧ broker.days_to_pay.getD 0 ≤ 15 then 10
  else if otruthy broker.days_to_pay ∧ broker.days_to_pay.getD 0 > 45 then -5
  else 0

/-- Rule 6 (api/lane-targeting.ts lines 149-153): +5 when never contacted
(`outreach_status` is `new` or falsy). -/
def freshTerm (broker : Broker) : Int :=
  if broker.outreach_status == some OStatus.new || broker.outreach_status == none then 5
  else 0

/-- Rule 7 (api/lane-targeting.ts lines 155-159): 5 per booked load. -/
def loadsTerm (broker : Broker) : Int :=
  if ogt broker.total_loads_booked 0 then (broker.total_loads_booked.getD 0 : Int) * 5 else 0

/-- Rule 8 (api/lane-targeting.ts lines 161-165): +10 for a response rate
over 50. -/
def respTerm (broker : Broker) : Int :=
  if ogt broker.response_rate 50 then 10 else 0

/-- `scoreBrokerTarget` (api/lane-targeting.ts lines 98-169).  The source
accumulates into a mutable `score` starting at 50; each rule adds a term
that does not depend on the running value, so the result is the clamped sum
of the terms above.  The human-readable reason list is presentational and
omitted. -/
def scoreBrokerTarget (broker : Broker) (carrier : Carrier) (carrierState : String) : Int :=
  min 100 (max 0 (50 + geoTerm broker carrierState + laneTerm broker carrier +
    authTerm broker + creditTerm broker + payTerm broker + freshTerm broker +
    loadsTerm broker + respTerm broker))

/-- A state's telemarketing rule record (api/compliance-check.ts lines 21-29). -/
structure StateRule where
  state : String
  name : String
  timezone : String
  call_start_hour : Nat
  call_end_hour : Nat
  state_dnc_registry : Bool
  additional_restrictions : List String
deriving DecidableEq

/-- `STATE_RULES` (api/compliance-check.ts lines 31-43). -/
def STATE_RULES : List (String × StateRule) :=
  [("CA", ⟨"CA", "California", "America/Los_Angeles", 8, 21, true,
     ["Requires written consent for automated calls", "Must identify caller within first 30 seconds"]⟩),
   ("NY", ⟨"NY", "New York", "America/New_York", 8, 21, true, ["Must register with NY DNC"]⟩),
   ("TX", ⟨"TX", "Texas", "America/Chicago", 8, 21, true, ["Must check Texas no-call list"]⟩),
   ("FL", ⟨"FL", "Florida", "America/New_York", 8, 21, true,
     ["Calling hours 8am-8pm local", "Must register as telemarketer"]⟩),
   ("PA", ⟨"PA", "Pennsylvania", "America/New_York", 8, 21, true, []⟩),
   ("IL", ⟨"IL", "Illinois", "America/Chicago", 8, 21, true, ["Must provide opt-out mechanism"]⟩),
   ("NJ", ⟨"NJ", "New Jersey", "America/New_York", 8, 21, true, ["Must register with NJ DCA"]⟩),
   ("GA", ⟨"GA", "Georgia", "America/New_York", 8, 21, true, []⟩),
   ("OH", ⟨"OH", "Ohio", "America/New_York", 8, 21, true, []⟩),
   ("NC", ⟨"NC", "North Carolina", "America/New_York", 8, 21, true, []⟩)]

/-- `FEDERAL_DEFAULT` (api/compliance-check.ts lines 46-59). -/
def FEDERAL_DEFAULT : StateRule :=
  ⟨"DEFAULT", "Federal (TCPA)", "America/New_York", 8, 21, false,
   ["Federal TCPA: No calls before 8am or after 9pm local time",
    "Must identify yourself and company",
    "Must honor do-not-call requests immediately",
    "B2B cold calls are generally permitted under TCPA"]⟩

/-- `getStateRules` (api/compliance-check.ts lines 61-63): table lookup on the
upper-cased code, falling back to the federal default with `state` and `name`
replaced by the code. -/
def getStateRules (stateCode : String) : StateRule :=
  match STATE_RULES.find? (fun p => p.fst == upper stateCode) with
  | some p => p.snd
  | none => { FEDERAL_DEFAULT with state := upper stateCode, name := upper stateCode }

/-- Result record of `canCallNow`. -/
structure CallCheck where
  allowed : Bool
  reason : String
  local_time : String
deriving DecidableEq

/-- Two-digit zero-padded rendering of an hour or minute
(`padStart(2, '0')`). -/
def pad2 (n : Nat) : String :=
  if n < 10 then "0" ++ toString n else toString n

/-- `canCallNow` (api/compliance-check.ts lines 66-97).  The source reads the
current instant and converts it to the region's local clock through the date
library; the embedding takes the region-local hour and minute directly. -/
def canCallNow (stateCode : String) (hour minute : Nat) : CallCheck :=
  let rules := getStateRules stateCode
  let timeStr := pad2 hour ++ ":" ++ pad2 minute
  if hour < rules.call_start_hour then
    { allowed := false,
      reason := "Too early in " ++ rules.name ++ ". Calling allowed after " ++
        toString rules.call_start_hour ++ ":00 AM local time. Current local time: " ++
        timeStr ++ ".",
      local_time := timeStr }
  else if hour ≥ rules.call_end_hour then
    { allowed := false,
      reason := "Too late in " ++ rules.name ++ ". Calling not allowed after " ++
        toString rules.call_end_hour ++ ":00 PM local time. Current local time: " ++
        timeStr ++ ".",
      local_time := timeStr }
  else
    { allowed := true,
      reason := "OK to call " ++ rules.name ++ ". Current local time: " ++ timeStr ++
        ". Window: " ++ toString rules.call_start_hour ++ ":00 AM - " ++
        toString rules.call_end_hour ++ ":00 PM.",
      local_time := timeStr }

/-- A CRM broker row (`brokers` table) as the campaign paths read and write
it. -/
structure CrmBroker where
  id : Nat
  email : Option String := none
  phone : Option String := none
  outreach_status : Option OStatus := none
  first_contact_date : Option Int := none
  last_contact_date : Option Int := none
  total_outreach_attempts : Option Nat := none
  address_state : Option String := none
deriving DecidableEq

/-- An `outreach_campaigns` row, restricted to the fields the campaign logic
branches on or mutates (subject/body text, template names and provider
message ids are carried opaquely by the source and omitted here). -/
structure Campaign where
  id : Nat
  carrier_id : Nat
  broker_id : Nat
  sequence_step : Nat
  status : CStatus
  method : Method
  scheduled_at : Int
  sent_at : Option Int := none
  parent_campaign_id : Option Nat := none
  error_message : Option String := none
deriving DecidableEq

/-- A follow-up email template (`email_templates` row fields the scheduler
uses). -/
structure Tmpl where
  delay_days : Int
  sequence_step : Nat
deriving DecidableEq

/-- `.eq('id', brokerId).single()` against the brokers table (ids are the
table's primary key). -/
def findBroker (bstore : List CrmBroker) (brokerId : Nat) : Option CrmBroker :=
  bstore.find? (fun b => b.id == brokerId)

/-- Filter of the send-initial duplicate check (api/email-send.ts lines
238-244): same broker, same carrier, `sequence_step = 1` — with NO filter on
status. -/
def step1Matches (carrierId brokerId : Nat) (c : Campaign) : Bool :=
  c.broker_id == brokerId && c.carrier_id == carrierId && c.sequence_step == 1

/-- The duplicate check's `.single()`: the row when the filter matches
exactly one row, otherwise an error, which the source discards, leaving
`existingCampaign` null. -/
def findExistingStep1 (cstore : List Campaign) (carrierId brokerId : Nat) : Option Campaign :=
  match cstore.filter (step1Matches carrierId brokerId) with
  | [c] => some c
  | _ => none

/-- Result of the send-initial action. -/
inductive SendInitialRes where
  | noCarrier
  | brokerNotFound
  | noEmail
  | templateMissing
  | conflict (campaignId : Nat) (status : CStatus)
  | outcome (success : Bool)
deriving DecidableEq

/-- True exactly for the 409 conflict result. -/
def isConflict : SendInitialRes → Bool
  | SendInitialRes.conflict _ _ => true
  | _ => false

/-- The step-1 campaign row send-initial inserts (api/email-send.ts lines
299-318): status `sent`/`failed` by the delivery result, `sent_at` only on
success, the provider's failure message recorded. -/
def initialEmailRecord (carrierId brokerId newId : Nat) (now : Int)
    (sendRes : Option String) : Campaign :=
  { id := newId, carrier_id := carrierId, broker_id := brokerId, sequence_step := 1,
    status := if sendRes.isNone then CStatus.sent else CStatus.failed,
    method := Method.email, scheduled_at := now,
    sent_at := if sendRes.isNone then some now else none,
    parent_campaign_id := none, error_message := sendRes }

/-- `scheduleFollowUps` (api/email-send.ts lines 75-113): one `scheduled` row
per follow-up template, `scheduled_at = now + delay_days`, all parented to the
step-1 id.  `nextId` seeds the store-assigned ids. -/
def followUpRecords (carrierId brokerId parentId : Nat) (now : Int)
    (tmpls : List Tmpl) (nextId : Nat) : List Campaign :=
  tmpls.enum.map (fun p =>
    { id := nextId + p.fst, carrier_id := carrierId, broker_id := brokerId,
      sequence_step := p.snd.sequence_step, status := CStatus.scheduled,
      method := Method.email, scheduled_at := now + p.snd.delay_days,
      parent_campaign_id := some parentId, error_message := none })

/-- The broker mutation send-initial performs (api/email-send.ts lines
321-326).  The payload is computed from the broker row fetched earlier
(`broker`), then applied to every row with that id. -/
def brokerAfterInitial (fetched : CrmBroker) (now : Int) (x : CrmBroker) : CrmBroker :=
  { x with outreach_status := some OStatus.contacted,
           last_contact_date := some now,
           first_contact_date := some (fetched.first_contact_date.getD now),
           total_outreach_attempts := some (fetched.total_outreach_attempts.getD 0 + 1) }

/-- The send-initial action (api/email-send.ts lines 213-340), from the
carrier-profile fetch onward.  `carrier` is the fetched carrier profile;
`sendRes` is the delivery oracle (`none` = accepted, also used for dry-run);
`tmplOk` is whether the `initial_outreach` template lookup succeeded;
`newId`/`nextId` seed store-assigned ids.  Returns the handler outcome and
the two stores. -/
def sendInitial (cstore : List Campaign) (bstore : List CrmBroker)
    (carrier : Option Carrier) (userId brokerId : Nat) (tmplOk : Bool)
    (tmpls : List Tmpl) (now : Int) (sendRes : Option String)
    (newId nextId : Nat) : SendInitialRes × List Campaign × List CrmBroker :=
  match carrier with
  | none => (SendInitialRes.noCarrier, cstore, bstore)
  | some _ =>
    match findBroker bstore brokerId with
    | none => (SendInitialRes.brokerNotFound, cstore, bstore)
    | some broker =>
      if strFalsy broker.email then (SendInitialRes.noEmail, cstore, bstore)
      else
        match findExistingStep1 cstore userId brokerId with
        | some c => (SendInitialRes.conflict c.id c.status, cstore, bstore)
        | none =>
          if !tmplOk then (SendInitialRes.templateMissing, cstore, bstore)
          else
            let ok := sendRes.isNone
            let cstore1 := cstore ++ [initialEmailRecord userId brokerId newId now sendRes]
            let bstore1 := bstore.map (fun x =>
              if x.id == brokerId then brokerAfterInitial broker now x else x)
            let cstore2 :=
              if ok then cstore1 ++ followUpRecords userId brokerId newId now tmpls nextId
              else cstore1
            (SendInitialRes.outcome ok, cstore2, bstore1)

/-- Result of the voice-call initiate action. -/
inductive VoiceRes where
  | noCarrier
  | brokerNotFound
  | noPhone
  | devLogged
  | placed
deriving DecidableEq

/-- The step-1 row the initiate action inserts (api/voice-call.ts lines
154-166 dev mode, 187-198 production): always `sequence_step = 1` and status
`sent`, with no duplicate check before the insert. -/
def voiceCallRecord (carrierId brokerId newId : Nat) (now : Int) (dev : Bool) : Campaign :=
  { id := newId, carrier_id := carrierId, broker_id := brokerId, sequence_step := 1,
    status := CStatus.sent, method := Method.call, scheduled_at := now,
    sent_at := some now, parent_campaign_id := none,
    error_message := if dev then some "DEV MODE — no actual call placed" else none }

/-- The initiate action (api/voice-call.ts lines 121-212), from the fetches
onward.  `twilioConfigured` is whether all three Twilio credentials are set;
`localHour`/`localMinute` are the broker-region local clock at the instant of
the call — the handler never reads them (no compliance gate on this path),
they are inputs so that theorems can relate the dispatch decision to
`canCallNow`. -/
def voiceInitiate (cstore : List Campaign) (bstore : List CrmBroker)
    (carrier : Option Carrier) (userId brokerId : Nat) (twilioConfigured : Bool)
    (now : Int) (newId : Nat) (localHour localMinute : Nat) :
    VoiceRes × List Campaign × List CrmBroker :=
  match carrier with
  | none => (VoiceRes.noCarrier, cstore, bstore)
  | some _ =>
    match findBroker bstore brokerId with
    | none => (VoiceRes.brokerNotFound, cstore, bstore)
    | some broker =>
      if strFalsy broker.phone then (VoiceRes.noPhone, cstore, bstore)
      else if !twilioConfigured then
        (VoiceRes.devLogged, cstore ++ [voiceCallRecord userId brokerId newId now true], bstore)
      else
        (VoiceRes.placed, cstore ++ [voiceCallRecord userId brokerId newId now false],
         bstore.map (fun x =>
           if x.id == brokerId then
             { x with last_contact_date := some now,
                      total_outreach_attempts := some (broker.total_outreach_attempts.getD 0 + 1),
                      outreach_status :=
                        if broker.outreach_status == some OStatus.new then some OStatus.contacted
                        else broker.outreach_status }
           else x))

/-- Ordering key of `order('sent_at', { ascending: false }).limit(1)`:
descending with nulls first (the store's default), so an absent `sent_at`
sorts before every timestamp. -/
def sentGT : Option Int → Option Int → Bool
  | none, none => false
  | none, some _ => true
  | some _, none => false
  | some a, some b => a > b

/-- The mark-responded selection (api/response-track.ts lines 41-49): the
most recent campaign for the pair whose status is `sent`, `delivered` or
`opened` (first such row under the descending `sent_at` order; ties keep the
earlier row). -/
def respondedPick (cstore : List Campaign) (carrierId brokerId : Nat) : Option Campaign :=
  let cands := cstore.filter (fun c =>
    c.broker_id == brokerId && c.carrier_id == carrierId &&
    (c.status == CStatus.sent || c.status == CStatus.delivered || c.status == CStatus.opened))
  match cands with
  | [] => none
  | x :: xs => some (xs.foldl (fun best c => if sentGT c.sent_at best.sent_at then c else best) x)

/-- The first mark-responded update (api/response-track.ts lines 52-57):
rewrite the selected campaign to `replied` (by id). -/
def replyUpd (cid : Nat) (x : Campaign) : Campaign :=
  if x.id == cid then { x with status := CStatus.replied } else x

/-- The second mark-responded update (api/response-track.ts lines 60-66):
rewrite every still-`scheduled` campaign of the pair to `cancelled`. -/
def cancelUpd (carrierId brokerId : Nat) (x : Campaign) : Campaign :=
  if x.broker_id == brokerId && x.carrier_id == carrierId && x.status == CStatus.scheduled then
    { x with status := CStatus.cancelled,
             error_message := some "Cancelled — broker responded" }
  else x

/-- The mark-responded action's effect on the campaign store
(api/response-track.ts lines 40-67): if the selection found a campaign, set
it to `replied`, then set every `scheduled` campaign of the pair to
`cancelled`; if the selection found nothing, the campaign store is untouched.
The subsequent broker-row update (status `responded`, response counters and
the floating-point response-rate recomputation) does not touch campaigns and
is outside the claims over this store. -/
def markResponded (cstore : List Campaign) (carrierId brokerId : Nat) : List Campaign :=
  match respondedPick cstore carrierId brokerId with
  | none => cstore
  | some c => (cstore.map (replyUpd c.id)).map (cancelUpd carrierId brokerId)

/-- The sweep's due filter (api/follow-up-check.ts lines 45-46):
`status = scheduled` and `scheduled_at <= now`. -/
def dueFilter (now : Int) (c : Campaign) : Bool :=
  c.status == CStatus.scheduled && c.scheduled_at ≤ now

/-- Insertion step of the `order('scheduled_at')` sort. -/
def insertSched (c : Campaign) : List Campaign → List Campaign
  | [] => [c]
  | d :: ds => if c.scheduled_at ≤ d.scheduled_at then c :: d :: ds else d :: insertSched c ds

/-- Stable sort by `scheduled_at` ascending. -/
def sortBySched : List Campaign → List Campaign
  | [] => []
  | c :: cs => insertSched c (sortBySched cs)

/-- The sweep's fetch (api/follow-up-check.ts lines 38-48): due scheduled
campaigns, ordered by `scheduled_at`, first 100. -/
def sweepFetch (cstore : List Campaign) (now : Int) : List Campaign :=
  (sortBySched (cstore.filter (dueFilter now))).take 100

/-- Per-step disposition of the sweep loop (api/follow-up-check.ts lines
63-133): the campaign's new status and error message, whether the branch also
rewrites `sent_at`, and whether delivery was attempted.  `snap` is the
broker row joined at fetch time (an absent row reads as having no email);
`sendRes` is the delivery oracle's answer for this campaign. -/
structure StepOutcome where
  status : CStatus
  error_message : Option String
  touchSentAt : Bool
  dispatched : Bool
deriving DecidableEq

/-- The sweep loop body's disposition (api/follow-up-check.ts lines 63-133). -/
def processStep (snap : Option CrmBroker) (sendRes : Option String) : StepOutcome :=
  match snap with
  | none => ⟨CStatus.failed, some "Broker has no email address", false, false⟩
  | some b =>
    if strFalsy b.email then
      ⟨CStatus.failed, some "Broker has no email address", false, false⟩
    else if b.outreach_status == some OStatus.responded || b.outreach_status == some OStatus.active then
      ⟨CStatus.cancelled, some "Broker already responded — follow-up cancelled", false, false⟩
    else if b.outreach_status == some OStatus.blacklisted then
      ⟨CStatus.cancelled, some "Broker is blacklisted", false, false⟩
    else if sendRes.isNone then ⟨CStatus.sent, none, true, true⟩
    else ⟨CStatus.failed, sendRes, true, true⟩

/-- The evolving state of one sweep invocation: the campaign store, the
broker store, and the ids delivery was attempted for. -/
structure SweepState where
  camps : List Campaign
  crm : List CrmBroker
  dispatched : List Nat
deriving DecidableEq

/-- `brokerData?.total_outreach_attempts || 0` re-read from the current
broker store (api/follow-up-check.ts lines 137-145). -/
def currentAttempts (bstore : List CrmBroker) (brokerId : Nat) : Nat :=
  (((findBroker bstore brokerId).bind (fun b => b.total_outreach_attempts)).getD 0)

/-- One iteration of the sweep loop over a fetched campaign and its
fetch-time broker snapshot: update the campaign row, update the broker's
contact tracking only on a successful send, record the dispatch. -/
def sweepStep (now : Int) (oracle : Nat → Option String) (st : SweepState)
    (item : Campaign × Option CrmBroker) : SweepState :=
  let c := item.fst
  let res := oracle c.id
  let o := processStep item.snd res
  let camps := st.camps.map (fun x =>
    if x.id == c.id then
      { x with status := o.status,
               error_message := o.error_message,
               sent_at := if o.touchSentAt then (if res.isNone then some now else none) else x.sent_at }
    else x)
  let crm :=
    if o.dispatched && res.isNone then
      let cur := currentAttempts st.crm c.broker_id
      st.crm.map (fun b =>
        if b.id == c.broker_id then
          { b with last_contact_date := some now, total_outreach_attempts := some (cur + 1) }
        else b)
    else st.crm
  ⟨camps, crm, st.dispatched ++ (if o.dispatched then [c.id] else [])⟩

/-- The whole follow-up sweep (api/follow-up-check.ts handler): fetch the due
batch with its broker join, then process each fetched step in order against
the evolving stores. -/
def followUpCheck (cstore : List Campaign) (bstore : List CrmBroker) (now : Int)
    (oracle : Nat → Option String) : SweepState :=
  ((sweepFetch cstore now).map (fun c => (c, findBroker bstore c.broker_id))).foldl
    (sweepStep now oracle) ⟨cstore, bstore, []⟩

/-- Two sweep invocations whose fetches both happen before either one's
updates commit (the serverless overlap the spec's concurrency section
discusses): each computes from the same initial stores; the pair of
dispatched-id lists. -/
def overlappingSweeps (cstore : List Campaign) (bstore : List CrmBroker)
    (now1 now2 : Int) (oracle1 oracle2 : Nat → Option String) : List Nat × List Nat :=
  ((followUpCheck cstore bstore now1 oracle1).dispatched,
   (followUpCheck cstore bstore now2 oracle2).dispatched)

/-- Count of non-cancelled step-1 records for a (carrier, broker) pair: the
quantity §3's invariant says is at most one. -/
def countStep1Active (cstore : List Campaign) (carrierId brokerId : Nat) : Nat :=
  (cstore.filter (fun c => step1Matches carrierId brokerId c && c.status != CStatus.cancelled)).length

/-! ## Reference definitions written from the claims' words (for the
refinement-style claims), and helper lemmas. -/

/-- Reference definition following claim C8's words: payment defaults to 15
only when `credit_score` is ABSENT; a present value — including 0 — is
tiered. -/
def paymentBaseClaimC8 (b : Broker) : Int :=
  match b.credit_score with
  | none => 15
  | some c =>
    if c ≥ 95 then 25 else if c ≥ 90 then 22 else if c ≥ 85 then 18
    else if c ≥ 80 then 12 else 5

/-- Reference definition following claim C8's words: a present `days_to_pay`
— including 0 — adjusts the base, clamped into [0,25]. -/
def paymentScoreClaimC8 (b : Broker) : Int :=
  let p := paymentBaseClaimC8 b
  match b.days_to_pay with
  | none => p
  | some d =>
    if d ≤ 7 then min 25 (p + 5)
    else if d ≤ 15 then min 25 (p + 3)
    else if d > 45 then max 0 (p - 5)
    else p

/-- Claim C8 as the code forces it to be amended: a present but ZERO
`credit_score` keeps the default 15 (the source's truthiness test). -/
def paymentBaseClaimC8Amended (b : Broker) : Int :=
  match b.credit_score with
  | none => 15
  | some c =>
    if c = 0 then 15
    else if c ≥ 95 then 25 else if c ≥ 90 then 22 else if c ≥ 85 then 18
    else if c ≥ 80 then 12 else 5

/-- Claim C8 as the code forces it to be amended: a present but ZERO
`days_to_pay` applies no adjustment; otherwise exactly the claim's
adjustments, clamped into [0,25]. -/
def paymentScoreClaimC8Amended (b : Broker) : Int :=
  let p := paymentBaseClaimC8Amended b
  match b.days_to_pay with
  | none => p
  | some d =>
    if d = 0 then p
    else if d ≤ 7 then min 25 (p + 5)
    else if d ≤ 15 then min 25 (p + 3)
    else if d > 45 then max 0 (p - 5)
    else p

theorem paymentBase_bounds (b : Broker) : 5 ≤ paymentBase b ∧ paymentBase b ≤ 25 := by
  unfold paymentBase
  split_ifs <;> omega

theorem paymentScore_bounds (b : Broker) : 0 ≤ paymentScore b ∧ paymentScore b ≤ 25 := by
  have hb := paymentBase_bounds b
  unfold paymentScore
  split_ifs <;> (try dsimp only) <;> omega

theorem paymentBase_eq_amended (b : Broker) : paymentBase b = paymentBaseClaimC8Amended b := by
  unfold paymentBase paymentBaseClaimC8Amended
  rcases hc : b.credit_score with _ | c
  · simp [otruthy]
  · by_cases h0 : c = 0
    · simp [otruthy, h0]
    · simp [otruthy, oge, h0]

theorem responseScore_bounds (b : Broker) : 0 ≤ responseScore b ∧ responseScore b ≤ 25 := by
  unfold responseScore
  rcases hb : b.days_since_last_contact with _ | d <;>
    split_ifs <;> (try dsimp only) <;> omega

theorem revenueScore_bounds (b : Broker) : 0 ≤ revenueScore b ∧ revenueScore b ≤ 25 := by
  unfold revenueScore
  split_ifs <;> omega

theorem reliabilityScore_bounds (b : Broker) : 0 ≤ reliabilityScore b ∧ reliabilityScore b ≤ 25 := by
  unfold reliabilityScore
  split_ifs <;> (try dsimp only) <;> omega

/-- Claim C9: for every broker record, with any combination of present and
absent fields, `calculateRelationshipScore` returns normally (it is a total
function of the record) with a total within [0,100]; with all
scoring-relevant fields absent the sub-scores are payment 15,
responsiveness 10, revenue 0, reliability 10, total 35. -/
theorem relationship_score_total_and_defaults (b : Broker) :
    0 ≤ (calculateRelationshipScore b).fst ∧ (calculateRelationshipScore b).fst ≤ 100 ∧
    calculateRelationshipScore {} = (35, ⟨15, 10, 0, 10⟩) := by
  have hp := paymentScore_bounds b
  have hr := responseScore_bounds b
  have hv := revenueScore_bounds b
  have hy := reliabilityScore_bounds b
  refine ⟨?_, ?_, by decide⟩ <;>
    · unfold calculateRelationshipScore
      dsimp only
      omega

/-- Claim C8, counterexample: the claim says a present credit score of 0 is
tiered (base 5) and a present `days_to_pay` of 0 earns the +5 adjustment, but
the source's truthiness guards treat both zeros like absence, so the payment
sub-score is 15 in both cases. -/
theorem payment_zero_fields_cex :
    paymentScoreClaimC8 { credit_score := some 0 } = 5 ∧
    paymentScore { credit_score := some 0 } = 15 ∧
    paymentScoreClaimC8 { days_to_pay := some 0 } = 20 ∧
    paymentScore { days_to_pay := some 0 } = 15 ∧
    (calculateRelationshipScore { credit_score := some 0 }).snd.payment = 15 := by
  decide

/-- Claim C8 (amended): the payment sub-score defaults to 15 when
`credit_score` is absent OR zero; a present nonzero value is tiered
{≥95→25, ≥90→22, ≥85→18, ≥80→12, else→5}; a present nonzero `days_to_pay`
adjusts {≤7: +5, ≤15: +3, >45: −5}, clamped into [0,25]; the result is the
payment entry of `calculateRelationshipScore`'s breakdown and lies in
[0,25]. -/
theorem payment_subscore_amended (b : Broker) :
    paymentScore b = paymentScoreClaimC8Amended b ∧
    0 ≤ paymentScore b ∧ paymentScore b ≤ 25 ∧
    (calculateRelationshipScore b).snd.payment = paymentScore b := by
  refine ⟨?_, (paymentScore_bounds b).1, (paymentScore_bounds b).2, rfl⟩
  unfold paymentScore paymentScoreClaimC8Amended
  rw [paymentBase_eq_amended]
  rcases hd : b.days_to_pay with _ | d
  · rfl
  · by_cases h0 : d = 0
    · simp [otruthy, h0]
    · simp [otruthy, h0]

/-- Reference definition following claim C7's words: "subtract 15 if
credit_score is present and < 80" — presence includes the value 0. -/
def creditTermClaimC7 (broker : Broker) : Int :=
  match broker.credit_score with
  | none => 0
  | some c => if c ≥ 90 then 10 else if c < 80 then -15 else 0

/-- Reference definition following claim C7's words: "+10 if days_to_pay
≤ 15, subtract 5 if days_to_pay > 45" — for a present value, including 0. -/
def payTermClaimC7 (broker : Broker) : Int :=
  match broker.days_to_pay with
  | none => 0
  | some d => if d ≤ 15 then 10 else if d > 45 then -5 else 0

/-- Reference definition following claim C7's words: "add 5 ×
total_loads_booked" (an absent count contributes 0). -/
def loadsTermClaimC7 (broker : Broker) : Int :=
  (broker.total_loads_booked.getD 0 : Int) * 5

/-- Claim C7's reference scorer: base 50, the eight additive rules as the
claim states them, clamped to [0,100]. -/
def targetScoreClaimC7 (broker : Broker) (carrier : Carrier) (carrierState : String) : Int :=
  min 100 (max 0 (50 + geoTerm broker carrierState + laneTerm broker carrier +
    authTerm broker + creditTermClaimC7 broker + payTermClaimC7 broker +
    freshTerm broker + loadsTermClaimC7 broker + respTerm broker))

/-- Claim C7's credit rule as the code forces it to be amended: the −15
branch requires a present, NONZERO credit score below 80. -/
def creditTermClaimC7Amended (broker : Broker) : Int :=
  match broker.credit_score with
  | none => 0
  | some c => if c = 0 then 0 else if c ≥ 90 then 10 else if c < 80 then -15 else 0

/-- Claim C7's days-to-pay rule as the code forces it to be amended: the +10
branch requires a present, NONZERO value ≤ 15. -/
def payTermClaimC7Amended (broker : Broker) : Int :=
  match broker.days_to_pay with
  | none => 0
  | some d => if d = 0 then 0 else if d ≤ 15 then 10 else if d > 45 then -5 else 0

/-- Claim C7 amended: the same scorer with the zero-valued fields falling
through the truthiness guards. -/
def targetScoreClaimC7Amended (broker : Broker) (carrier : Carrier) (carrierState : String) : Int :=
  min 100 (max 0 (50 + geoTerm broker carrierState + laneTerm broker carrier +
    authTerm broker + creditTermClaimC7Amended broker + payTermClaimC7Amended broker +
    freshTerm broker + loadsTermClaimC7 broker + respTerm broker))

theorem creditTerm_eq_amended (b : Broker) : creditTerm b = creditTermClaimC7Amended b := by
  unfold creditTerm creditTermClaimC7Amended
  rcases hc : b.credit_score with _ | c
  · simp [otruthy, oge]
  · by_cases h0 : c = 0
    · simp [otruthy, oge, h0]
    · simp [otruthy, oge, h0]

theorem payTerm_eq_amended (b : Broker) : payTerm b = payTermClaimC7Amended b := by
  unfold payTerm payTermClaimC7Amended
  rcases hd : b.days_to_pay with _ | d
  · simp [otruthy]
  · by_cases h0 : d = 0
    · simp [otruthy, h0]
    · simp [otruthy, h0]

theorem loadsTerm_eq_claim (b : Broker) : loadsTerm b = loadsTermClaimC7 b := by
  unfold loadsTerm loadsTermClaimC7
  rcases hl : b.total_loads_booked with _ | n
  · simp [ogt]
  · by_cases h0 : n = 0
    · simp [ogt, h0]
    · simp [ogt, h0]

/-- Claim C7, counterexample: a broker with a present credit score of 0 (and
nothing else set).  The claim's reference scorer subtracts 15 (present and
< 80) giving 40, but the source's truthiness guard skips the rule, giving
55. -/
theorem target_score_zero_credit_cex :
    targetScoreClaimC7 { credit_score := some 0 } { } "TX" = 40 ∧
    scoreBrokerTarget { credit_score := some 0 } { } "TX" = 55 := by
  constructor <;> rfl

/-- Claim C7 (amended): `scoreBrokerTarget` equals the claim's reference
scorer with the credit and days-to-pay rules restricted to present NONZERO
values (the source's truthiness guards); the result is always within
[0,100]. -/
theorem target_score_amended (b : Broker) (carrier : Carrier) (st : String) :
    scoreBrokerTarget b carrier st = targetScoreClaimC7Amended b carrier st ∧
    0 ≤ scoreBrokerTarget b carrier st ∧ scoreBrokerTarget b carrier st ≤ 100 := by
  refine ⟨?_, ?_, ?_⟩
  · unfold scoreBrokerTarget targetScoreClaimC7Amended
    rw [creditTerm_eq_amended, payTerm_eq_amended, loadsTerm_eq_claim]
  · unfold scoreBrokerTarget
    omega
  · unfold scoreBrokerTarget
    omega

theorem containsStr_append_left (n a b : String) (h : containsStr n a = true) :
    containsStr n (a ++ b) = true := by
  unfold containsStr at *
  rw [decide_eq_true_eq] at *
  have happ : (a ++ b).toList = a.toList ++ b.toList := rfl
  rw [happ]
  exact h.trans ((List.prefix_append a.toList b.toList).isInfix)

theorem getStateRules_window (code : String) :
    (getStateRules code).call_start_hour = 8 ∧ (getStateRules code).call_end_hour = 21 := by
  rcases hf : STATE_RULES.find? (fun p => p.fst == upper code) with _ | p
  · unfold getStateRules
    rw [hf]
    exact ⟨rfl, rfl⟩
  · have hm := List.mem_of_find?_eq_some hf
    unfold getStateRules
    rw [hf]
    simp only [STATE_RULES, List.mem_cons, List.not_mem_nil, or_false] at hm
    rcases hm with h | h | h | h | h | h | h | h | h | h <;> subst h <;> exact ⟨rfl, rfl⟩

/-- Claim C6: `canCallNow` evaluates as specified — an unknown region falls
back to the federal default window [8, 21) with registry flag false; a local
hour below the window start is refused with a reason mentioning "early"; a
local hour at or past the window end is refused with a reason mentioning
"late"; an hour inside the window is allowed.  For region "CA", local hour 7
is refused (reason mentions "early") and local hour 10 is allowed. -/
theorem compliance_window_evaluation (code : String) (hour minute : Nat) :
    ((STATE_RULES.find? (fun p => p.fst == upper code)).isNone = true →
      (getStateRules code).call_start_hour = 8 ∧ (getStateRules code).call_end_hour = 21 ∧
      (getStateRules code).state_dnc_registry = false) ∧
    (hour < (getStateRules code).call_start_hour →
      (canCallNow code hour minute).allowed = false ∧
      containsStr "early" (canCallNow code hour minute).reason = true) ∧
    ((getStateRules code).call_end_hour ≤ hour →
      (canCallNow code hour minute).allowed = false ∧
      containsStr "late" (canCallNow code hour minute).reason = true) ∧
    ((getStateRules code).call_start_hour ≤ hour ∧ hour < (getStateRules code).call_end_hour →
      (canCallNow code hour minute).allowed = true) ∧
    (canCallNow "CA" 7 0).allowed = false ∧
    containsStr "early" (canCallNow "CA" 7 0).reason = true ∧
    (canCallNow "CA" 10 0).allowed = true := by
  have hw := getStateRules_window code
  refine ⟨?_, ?_, ?_, ?_, by decide, by decide, by decide⟩
  · intro h
    rcases hf : STATE_RULES.find? (fun p => p.fst == upper code) with _ | p
    · unfold getStateRules
      rw [hf]
      exact ⟨rfl, rfl, rfl⟩
    · rw [hf] at h
      simp at h
  · intro h
    unfold canCallNow
    dsimp only
    rw [if_pos h]
    refine ⟨rfl, ?_⟩
    repeat apply containsStr_append_left
    decide
  · intro h
    have h1 : ¬ hour < (getStateRules code).call_start_hour := by omega
    have h2 : hour ≥ (getStateRules code).call_end_hour := h
    unfold canCallNow
    dsimp only
    rw [if_neg h1, if_pos h2]
    refine ⟨rfl, ?_⟩
    repeat apply containsStr_append_left
    decide
  · intro h
    have h1 : ¬ hour < (getStateRules code).call_start_hour := by omega
    have h2 : ¬ hour ≥ (getStateRules code).call_end_hour := by omega
    unfold canCallNow
    dsimp only
    rw [if_neg h1, if_neg h2]

/-- A broker in California with a phone number on file (used to relate the
call path to the compliance window). -/
def exPhoneBrokerCA : CrmBroker :=
  { id := 3, phone := some "5550100", address_state := some "CA" }

/-- Claim C5, counterexample: with Twilio configured, a carrier profile, and
a broker in region "CA" with a phone on file, the initiate action places the
call at local hour 7 — an instant at which `canCallNow` for "CA" refuses.
The dispatch path never consults the ComplianceWindow gate. -/
theorem voice_call_ignores_compliance_cex :
    (voiceInitiate [] [exPhoneBrokerCA] (some {}) 9 3 true 0 11 7 0).fst = VoiceRes.placed ∧
    exPhoneBrokerCA.address_state = some "CA" ∧
    (canCallNow "CA" 7 0).allowed = false := by
  decide

/-- Claim C5 (amended): the initiate action's result is entirely independent
of the broker-region local clock — `canCallNow` is never consulted on the
dispatch path (it is only served by the informational compliance-check
endpoint) — and the call is placed exactly when Twilio is configured, the
carrier profile exists, and the broker is found with a truthy phone.  Email
sends are likewise ungated. -/
theorem voice_dispatch_unconditional (cstore : List Campaign) (bstore : List CrmBroker)
    (cr : Option Carrier) (userId brokerId : Nat) (tw : Bool) (now : Int) (newId : Nat)
    (h1 m1 h2 m2 : Nat) :
    voiceInitiate cstore bstore cr userId brokerId tw now newId h1 m1 =
      voiceInitiate cstore bstore cr userId brokerId tw now newId h2 m2 ∧
    ((voiceInitiate cstore bstore cr userId brokerId tw now newId h1 m1).fst = VoiceRes.placed ↔
      tw = true ∧ cr.isSome = true ∧
      ∃ b, findBroker bstore brokerId = some b ∧ strFalsy b.phone = false) := by
  constructor
  · rfl
  · rcases hcr : cr with _ | c
    · simp [voiceInitiate]
    · rcases hfb : findBroker bstore brokerId with _ | b
      · simp [voiceInitiate, hfb]
      · by_cases hp : strFalsy b.phone = true
        · simp [voiceInitiate, hfb, hp]
        · rcases htw : tw
          · simp [voiceInitiate, hfb, hp, htw]
          · simp [voiceInitiate, hfb, hp, htw]

/-- A cancelled step-1 email record for carrier 9 / broker 3. -/
def exCancelledStep1 : Campaign :=
  { id := 1, carrier_id := 9, broker_id := 3, sequence_step := 1,
    status := CStatus.cancelled, method := Method.email, scheduled_at := 0 }

/-- Broker 3 with an email address on file. -/
def exEmailBroker3 : CrmBroker :=
  { id := 3, email := some "dispatch@broker.example", phone := some "5550100" }

/-- Claim C1, counterexample.  (1) The send-initial duplicate check has no
status filter: when the pair's ONLY step-1 record is cancelled, initiation is
still rejected as a conflict — the claim says such a pair may be initiated
again.  (2) The call-initiate path performs no duplicate check at all: two
initiations both insert, leaving two non-cancelled step-1 records for the
pair — the claim says a second initiation is rejected and at most one
non-cancelled step-1 record ever exists. -/
theorem step1_uniqueness_cex :
    isConflict (sendInitial [exCancelledStep1] [exEmailBroker3] (some {}) 9 3 true [] 0
      none 11 12).fst = true ∧
    exCancelledStep1.status = CStatus.cancelled ∧
    countStep1Active
      ((voiceInitiate
        ((voiceInitiate [] [exEmailBroker3] (some {}) 9 3 true 0 21 9 0).snd.fst)
        [exEmailBroker3] (some {}) 9 3 true 0 22 9 0).snd.fst) 9 3 = 2 := by
  decide

/-- Claim C1 (amended): the email path's duplicate check is a status-blind
`.single()` — initiation is rejected as a conflict exactly when EXACTLY ONE
step-1 record (of any status, cancelled included) exists for the pair, and a
conflict leaves both stores untouched; the call-initiate path performs no
duplicate check and, once its validation passes, always inserts one more
non-cancelled (`sent`) step-1 record for the pair. -/
theorem step1_check_amended (cstore : List Campaign) (bstore : List CrmBroker)
    (cr : Carrier) (userId brokerId : Nat) (tmpls : List Tmpl) (now : Int)
    (sendRes : Option String) (newId nextId nid2 : Nat) (b : CrmBroker) (tw : Bool)
    (h m : Nat)
    (hb : findBroker bstore brokerId = some b) (he : strFalsy b.email = false)
    (hp : strFalsy b.phone = false) :
    (isConflict (sendInitial cstore bstore (some cr) userId brokerId true tmpls now
        sendRes newId nextId).fst = true ↔
      (cstore.filter (step1Matches userId brokerId)).length = 1) ∧
    (isConflict (sendInitial cstore bstore (some cr) userId brokerId true tmpls now
        sendRes newId nextId).fst = true →
      (sendInitial cstore bstore (some cr) userId brokerId true tmpls now
        sendRes newId nextId).snd = (cstore, bstore)) ∧
    countStep1Active
        (voiceInitiate cstore bstore (some cr) userId brokerId tw now nid2 h m).snd.fst
        userId brokerId =
      countStep1Active cstore userId brokerId + 1 := by
  refine ⟨?_, ?_, ?_⟩
  · unfold sendInitial
    rw [hb]
    dsimp only
    rw [if_neg (by simp [he])]
    unfold findExistingStep1
    rcases hfl : cstore.filter (step1Matches userId brokerId) with _ | ⟨c1, rest⟩
    · dsimp only
      simp [isConflict]
    · rcases rest with _ | ⟨c2, rest2⟩
      · dsimp only
        simp [isConflict]
      · dsimp only
        simp [isConflict]
  · intro hconf
    unfold sendInitial at hconf ⊢
    rw [hb] at hconf ⊢
    dsimp only at hconf ⊢
    rw [if_neg (by simp [he])] at hconf ⊢
    rcases hex : findExistingStep1 cstore userId brokerId with _ | c
    · rw [hex] at hconf
      dsimp only at hconf
      simp [isConflict] at hconf
    · rfl
  · unfold voiceInitiate
    rw [hb]
    dsimp only
    rw [if_neg (by simp [hp])]
    rcases htw : tw <;>
      simp [countStep1Active, List.filter_append, voiceCallRecord, step1Matches]

theorem step1_check_amended_witness :
    countStep1Active
        (voiceInitiate [exCancelledStep1] [exEmailBroker3] (some {}) 9 3 true 0 21 9 0).snd.fst
        9 3 =
      countStep1Active [exCancelledStep1] 9 3 + 1 :=
  (step1_check_amended [exCancelledStep1] [exEmailBroker3] {} 9 3 [] 0 none 11 12 21
    exEmailBroker3 true 9 0 (by decide) (by decide) (by decide)).2.2

/-- A step-1 email record for carrier 9 / broker 3 that was sent. -/
def exSentStep1 : Campaign :=
  { id := 1, carrier_id := 9, broker_id := 3, sequence_step := 1,
    status := CStatus.sent, method := Method.email, scheduled_at := 0, sent_at := some 0 }

/-- Claim C10, counterexample: send-initial's validation (carrier profile
present, broker found, broker has an email) passes, yet the broker record is
NOT mutated — the duplicate-step-1 check exits with a conflict before the
mutation, so the attempt counter stays untouched. -/
theorem send_initial_conflict_no_mutation_cex :
    isConflict (sendInitial [exSentStep1] [exEmailBroker3] (some {}) 9 3 true [] 5
      none 11 12).fst = true ∧
    (sendInitial [exSentStep1] [exEmailBroker3] (some {}) 9 3 true [] 5
      none 11 12).snd.snd = [exEmailBroker3] ∧
    exEmailBroker3.total_outreach_attempts = none ∧
    exEmailBroker3.outreach_status = none := by
  decide

/-- Claim C10 (amended): once send-initial passes validation AND the
duplicate-step-1 check (and the initial template is found), the broker
record is always mutated — `outreach_status` to `contacted`,
`last_contact_date` to now, `first_contact_date` defaulted to now only when
previously absent, attempt counter +1 — for EVERY delivery result; the
step-1 record is written with status `failed` when delivery fails, and only
the follow-up fan-out is conditional on delivery success. -/
theorem send_initial_mutation_amended (cstore : List Campaign) (bstore : List CrmBroker)
    (cr : Carrier) (userId brokerId : Nat) (tmpls : List Tmpl) (now : Int)
    (sendRes : Option String) (newId nextId : Nat) (b : CrmBroker)
    (hb : findBroker bstore brokerId = some b) (he : strFalsy b.email = false)
    (hex : findExistingStep1 cstore userId brokerId = none) :
    (sendInitial cstore bstore (some cr) userId brokerId true tmpls now sendRes newId
        nextId).fst = SendInitialRes.outcome sendRes.isNone ∧
    (sendInitial cstore bstore (some cr) userId brokerId true tmpls now sendRes newId
        nextId).snd.snd =
      bstore.map (fun x => if x.id == brokerId then brokerAfterInitial b now x else x) ∧
    (brokerAfterInitial b now b).outreach_status = some OStatus.contacted ∧
    (brokerAfterInitial b now b).last_contact_date = some now ∧
    (brokerAfterInitial b now b).first_contact_date = some (b.first_contact_date.getD now) ∧
    (brokerAfterInitial b now b).total_outreach_attempts =
      some (b.total_outreach_attempts.getD 0 + 1) ∧
    (sendRes.isNone = false →
      (sendInitial cstore bstore (some cr) userId brokerId true tmpls now sendRes newId
          nextId).snd.fst = cstore ++ [initialEmailRecord userId brokerId newId now sendRes] ∧
      (initialEmailRecord userId brokerId newId now sendRes).status = CStatus.failed) ∧
    (sendRes.isNone = true →
      (sendInitial cstore bstore (some cr) userId brokerId true tmpls now sendRes newId
          nextId).snd.fst =
        cstore ++ [initialEmailRecord userId brokerId newId now sendRes] ++
          followUpRecords userId brokerId newId now tmpls nextId) := by
  unfold sendInitial
  rw [hb]
  dsimp only
  rw [if_neg (by simp [he]), hex]
  dsimp only
  refine ⟨rfl, rfl, rfl, rfl, rfl, rfl, ?_, ?_⟩
  · intro hfail
    refine ⟨?_, ?_⟩
    · simp [hfail]
    · simp [initialEmailRecord, hfail]
  · intro hsucc
    simp [hsucc]

theorem send_initial_mutation_amended_witness :
    (sendInitial [] [exEmailBroker3] (some {}) 9 3 true [] 5 (some "mailbox full")
        11 12).snd.snd =
      [exEmailBroker3].map (fun x => if x.id == 3 then brokerAfterInitial exEmailBroker3 5 x else x) :=
  (send_initial_mutation_amended [] [exEmailBroker3] {} 9 3 [] 5 (some "mailbox full")
    11 12 exEmailBroker3 (by decide) (by decide) (by decide)).2.1

/-- Reference definition following claim C3's words: the sweep's
cancellation precedence — (a) no contact address → `failed`, no delivery;
(b) `responded`/`active` → `cancelled`, no delivery; (c) `blacklisted` →
`cancelled`, no delivery; otherwise delivery is attempted and the step
becomes `sent` or `failed` by the outcome. -/
def dispositionClaimC3 (snap : Option CrmBroker) (success : Bool) : CStatus × Bool :=
  match snap with
  | none => (CStatus.failed, false)
  | some b =>
    if strFalsy b.email then (CStatus.failed, false)
    else if b.outreach_status == some OStatus.responded ||
        b.outreach_status == some OStatus.active then (CStatus.cancelled, false)
    else if b.outreach_status == some OStatus.blacklisted then (CStatus.cancelled, false)
    else (if success then CStatus.sent else CStatus.failed, true)

/-- Reference definition following claim C3's words: on a successful send the
broker's `last_contact_date` is set to now and the attempt counter is
incremented by 1 (from its current stored value). -/
def brokerBumpClaimC3 (bstore : List CrmBroker) (brokerId : Nat) (now : Int) :
    List CrmBroker :=
  bstore.map (fun x =>
    if x.id == brokerId then
      { x with last_contact_date := some now,
               total_outreach_attempts := some (currentAttempts bstore brokerId + 1) }
    else x)

/-- Claim C3: for every due step the sweep processes, the disposition follows
the cancellation precedence before any send attempt — the status and the
attempted-delivery flag equal the claim's reference disposition; the reasons
recorded are "Broker has no email address" (missing contact info),
one containing "already responded", and one containing "blacklisted"; the
broker store is untouched unless delivery was attempted and succeeded, in
which case exactly the claim's last-contact/attempt-counter bump is
applied. -/
theorem sweep_step_disposition (c : Campaign) (snap : Option CrmBroker) (now : Int)
    (oracle : Nat → Option String) (cstore : List Campaign) (bstore : List CrmBroker)
    (ds : List Nat) :
    let res := oracle c.id
    let o := processStep snap res
    let st := sweepStep now oracle ⟨cstore, bstore, ds⟩ (c, snap)
    ((o.status, o.dispatched) = dispositionClaimC3 snap res.isNone) ∧
    (o.dispatched = false → st.crm = bstore) ∧
    (o.dispatched = true → res.isNone = true →
      st.crm = brokerBumpClaimC3 bstore c.broker_id now) ∧
    (o.dispatched = true → res.isNone = false → st.crm = bstore) ∧
    (snap.elim true (fun b => strFalsy b.email) = true →
      o.error_message = some "Broker has no email address" ∧ o.dispatched = false) ∧
    (∀ b, snap = some b → strFalsy b.email = false →
      (b.outreach_status = some OStatus.responded ∨ b.outreach_status = some OStatus.active) →
      containsStr "already responded" (o.error_message.getD "") = true ∧
      o.dispatched = false) ∧
    (∀ b, snap = some b → strFalsy b.email = false →
      b.outreach_status = some OStatus.blacklisted →
      containsStr "blacklisted" (o.error_message.getD "") = true ∧
      o.dispatched = false) ∧
    (o.dispatched = true → o.status = (if res.isNone then CStatus.sent else CStatus.failed)) := by
  rcases snap with _ | b
  · rcases hres : oracle c.id with _ | e <;>
      simp [processStep, sweepStep, dispositionClaimC3, hres]
  · by_cases he : strFalsy b.email = true
    · rcases hres : oracle c.id with _ | e <;>
        simp [processStep, sweepStep, dispositionClaimC3, hres, he]
    · rw [Bool.not_eq_true] at he
      by_cases hra : (b.outreach_status == some OStatus.responded ||
          b.outreach_status == some OStatus.active) = true
      · rcases hres : oracle c.id with _ | e <;>
          simp [processStep, sweepStep, dispositionClaimC3, hres, he, hra] <;>
          exact ⟨fun _ => by decide, fun hb' => by rw [hb'] at hra; simp at hra⟩
      · rw [Bool.not_eq_true] at hra
        by_cases hbl : (b.outreach_status == some OStatus.blacklisted) = true
        · rcases hres : oracle c.id with _ | e <;>
            simp [processStep, sweepStep, dispositionClaimC3, hres, he, hra, hbl] <;>
            exact ⟨fun hb' => by rcases hb' with h | h <;> (rw [h] at hra; simp at hra),
              fun _ => by decide⟩
        · rw [Bool.not_eq_true] at hbl
          rcases hres : oracle c.id with _ | e <;>
            simp [processStep, sweepStep, dispositionClaimC3, brokerBumpClaimC3,
              hres, he, hra, hbl] <;>
            exact ⟨⟨fun h => by rw [h] at hra; simp at hra,
              fun h => by rw [h] at hra; simp at hra⟩,
              fun h => by rw [h] at hbl; simp at hbl⟩

/-- First scheduled follow-up (step 2) of the step-1 campaign `exSentStep1`. -/
def exFollowUp2 : Campaign :=
  { id := 2, carrier_id := 9, broker_id := 3, sequence_step := 2,
    status := CStatus.scheduled, method := Method.email, scheduled_at := 3,
    parent_campaign_id := some 1 }

/-- Second scheduled follow-up (step 3) of the step-1 campaign `exSentStep1`. -/
def exFollowUp3 : Campaign :=
  { id := 3, carrier_id := 9, broker_id := 3, sequence_step := 3,
    status := CStatus.scheduled, method := Method.email, scheduled_at := 7,
    parent_campaign_id := some 1 }

/-- A pair's campaign store: one sent step-1 and two scheduled follow-ups. -/
def exRespondStore : List Campaign := [exSentStep1, exFollowUp2, exFollowUp3]

/-- A lone scheduled follow-up with no sent/delivered/opened sibling. -/
def exLoneScheduled : Campaign :=
  { id := 2, carrier_id := 9, broker_id := 3, sequence_step := 2,
    status := CStatus.scheduled, method := Method.email, scheduled_at := 3,
    parent_campaign_id := some 1 }

/-- `exFollowUp2` as the mark-responded cancellation pass rewrites it. -/
def exFollowUp2Cancelled : Campaign :=
  { exFollowUp2 with
    status := CStatus.cancelled, error_message := some "Cancelled — broker responded" }

/-- `exFollowUp3` as the mark-responded cancellation pass rewrites it. -/
def exFollowUp3Cancelled : Campaign :=
  { exFollowUp3 with
    status := CStatus.cancelled, error_message := some "Cancelled — broker responded" }

/-- Claim C2, counterexample: mark-responded's selection only considers
campaigns with status `sent`/`delivered`/`opened`; on a store whose only
record for the pair is a `scheduled` (non-terminal) step, the operation
leaves the store untouched — nothing transitions to `replied` and the
scheduled step is NOT cancelled, contradicting the claim's "for every state
of the campaign store". -/
theorem mark_responded_skips_cex :
    markResponded [exLoneScheduled] 9 3 = [exLoneScheduled] ∧
    exLoneScheduled.status = CStatus.scheduled := by
  decide

/-- Claim C2 (amended): mark-responded picks the most recent campaign of the
pair with status in {sent, delivered, opened}; when one exists, every record
with its id becomes `replied` and NO scheduled step of the pair survives
(they are all cancelled); when none exists, the campaign store is untouched.
In the claim's scenario — a sent step-1 with two scheduled follow-ups — both
follow-ups become `cancelled` and a subsequent sweep dispatches nothing. -/
theorem mark_responded_amended (cstore : List Campaign) (carrierId brokerId : Nat) :
    (respondedPick cstore carrierId brokerId = none →
      markResponded cstore carrierId brokerId = cstore) ∧
    (∀ c, respondedPick cstore carrierId brokerId = some c →
      (∀ x ∈ markResponded cstore carrierId brokerId, x.id = c.id →
        x.status = CStatus.replied) ∧
      (∀ x ∈ markResponded cstore carrierId brokerId,
        ¬(x.broker_id = brokerId ∧ x.carrier_id = carrierId ∧
          x.status = CStatus.scheduled))) ∧
    markResponded exRespondStore 9 3 =
      [{ exSentStep1 with status := CStatus.replied }, exFollowUp2Cancelled,
       exFollowUp3Cancelled] ∧
    (followUpCheck (markResponded exRespondStore 9 3) [exEmailBroker3] 100
      (fun _ => none)).dispatched = [] := by
  refine ⟨?_, ?_, by decide, by decide⟩
  · intro hp
    unfold markResponded
    rw [hp]
  · intro c hc
    unfold markResponded
    rw [hc]
    constructor
    · intro x hx hid
      obtain ⟨y, hy, rfl⟩ := List.mem_map.mp hx
      obtain ⟨z, hz, rfl⟩ := List.mem_map.mp hy
      have hzid : (cancelUpd carrierId brokerId (replyUpd c.id z)).id = z.id := by
        unfold cancelUpd replyUpd
        split_ifs <;> rfl
      rw [hzid] at hid
      have hrep : replyUpd c.id z = { z with status := CStatus.replied } := by
        unfold replyUpd
        rw [if_pos (by simp [hid])]
      rw [hrep]
      unfold cancelUpd
      rw [if_neg (by simp)]
    · intro x hx
      obtain ⟨y, hy, rfl⟩ := List.mem_map.mp hx
      rintro ⟨hbk, hcr, hst⟩
      unfold cancelUpd at hbk hcr hst
      by_cases h2 : (y.broker_id == brokerId && y.carrier_id == carrierId &&
          y.status == CStatus.scheduled) = true
      · rw [if_pos h2] at hst
        simp at hst
      · rw [if_neg h2] at hbk hcr hst
        apply h2
        simp [hbk, hcr, hst]

theorem processStep_ne_scheduled (snap : Option CrmBroker) (res : Option String) :
    (processStep snap res).status ≠ CStatus.scheduled := by
  intro h
  rcases snap with _ | b
  · simp [processStep] at h
  · unfold processStep at h
    by_cases h1 : strFalsy b.email = true <;>
      by_cases h2 : (b.outreach_status = some OStatus.responded ∨
        b.outreach_status = some OStatus.active) <;>
      by_cases h3 : b.outreach_status = some OStatus.blacklisted <;>
      rcases hres : res.isNone <;>
      simp_all

/-- No campaign row whose id was dispatched is still `scheduled`. -/
def noSched (camps : List Campaign) (ds : List Nat) : Prop :=
  ∀ x ∈ camps, x.id ∈ ds → x.status ≠ CStatus.scheduled

theorem sweepStep_noSched (now : Int) (oracle : Nat → Option String) (st : SweepState)
    (it : Campaign × Option CrmBroker) (h : noSched st.camps st.dispatched) :
    noSched (sweepStep now oracle st it).camps (sweepStep now oracle st it).dispatched := by
  rcases st with ⟨camps, crm, ds⟩
  rcases it with ⟨c, snap⟩
  intro x hx hid
  unfold sweepStep at hx hid
  dsimp only at hx hid
  obtain ⟨y, hy, rfl⟩ := List.mem_map.mp hx
  by_cases hc : (y.id == c.id) = true
  · rw [if_pos hc]
    exact processStep_ne_scheduled snap (oracle c.id)
  · rw [if_neg hc] at hid ⊢
    rcases List.mem_append.mp hid with h1 | h1
    · exact h y hy h1
    · exfalso
      apply hc
    


      by_cases hd : (processStep snap (oracle c.id)).dispatched = true
      · rw [if_pos hd] at h1
        simp at h1
        simp [h1]
      · rw [if_neg hd] at h1
        simp at h1

theorem foldl_sweepStep_noSched (now : Int) (oracle : Nat → Option String)
    (items : List (Campaign × Option CrmBroker)) :
    ∀ st : SweepState, noSched st.camps st.dispatched →
      noSched ((items.foldl (sweepStep now oracle) st).camps)
        ((items.foldl (sweepStep now oracle) st).dispatched) := by
  induction items with
  | nil => intro st h; simpa using h
  | cons it rest ih =>
    intro st h
    rw [List.foldl_cons]
    exact ih _ (sweepStep_noSched now oracle st it h)

theorem foldl_sweepStep_dispatched (now : Int) (oracle : Nat → Option String)
    (items : List (Campaign × Option CrmBroker)) :
    ∀ (st : SweepState) (i : Nat),
      i ∈ (items.foldl (sweepStep now oracle) st).dispatched →
      i ∈ st.dispatched ∨ i ∈ items.map (fun it => it.fst.id) := by
  induction items with
  | nil => intro st i h; left; simpa using h
  | cons it rest ih =>
    intro st i h
    rw [List.foldl_cons] at h
    rcases ih _ i h with h1 | h1
    · rcases st with ⟨camps, crm, ds⟩
      rcases it with ⟨c, snap⟩
      unfold sweepStep at h1
      dsimp only at h1
      rcases List.mem_append.mp h1 with h2 | h2
      · left
        exact h2
      · right
        by_cases hd : (processStep snap (oracle c.id)).dispatched = true
        · rw [if_pos hd] at h2
          simp at h2
          simp [h2]
        · rw [if_neg hd] at h2
          simp at h2
    · right
      exact List.mem_cons_of_mem _ h1

theorem mem_insertSched (x c : Campaign) (l : List Campaign) :
    x ∈ insertSched c l ↔ x = c ∨ x ∈ l := by
  induction l with
  | nil => simp [insertSched]
  | cons d ds ih =>
    unfold insertSched
    split_ifs
    · simp [List.mem_cons]
    · rw [List.mem_cons, ih, List.mem_cons]
      tauto

theorem mem_sortBySched (x : Campaign) (l : List Campaign) :
    x ∈ sortBySched l ↔ x ∈ l := by
  induction l with
  | nil => simp [sortBySched]
  | cons c cs ih => simp [sortBySched, mem_insertSched, ih]

theorem sweepFetch_mem (cstore : List Campaign) (now : Int) (x : Campaign)
    (h : x ∈ sweepFetch cstore now) : x ∈ cstore ∧ dueFilter now x = true := by
  unfold sweepFetch at h
  have h1 : x ∈ sortBySched (cstore.filter (dueFilter now)) :=
    (List.take_sublist _ _).subset h
  rw [mem_sortBySched] at h1
  exact ⟨List.mem_of_mem_filter h1, List.of_mem_filter h1⟩

/-- Claim C4 (amended): repeated SEQUENTIAL sweep invocations never
re-dispatch — every step a sweep dispatched ends with a non-`scheduled`
status, so a later sweep's fetch excludes it and never delivers it again.
(Two OVERLAPPING invocations that both fetch before either one's updates
commit both dispatch the same due step — see the counterexample — because
the loop has no claim step before delivery.) -/
theorem sweep_no_redispatch (cstore : List Campaign) (bstore bstore2 : List CrmBroker)
    (now now2 : Int) (oracle oracle2 : Nat → Option String) (i : Nat)
    (hi : i ∈ (followUpCheck cstore bstore now oracle).dispatched) :
    i ∉ (followUpCheck (followUpCheck cstore bstore now oracle).camps
      bstore2 now2 oracle2).dispatched := by
  intro h2
  have hn : noSched (followUpCheck cstore bstore now oracle).camps
      (followUpCheck cstore bstore now oracle).dispatched := by
    unfold followUpCheck
    apply foldl_sweepStep_noSched
    intro x hx hid
    simp at hid
  unfold followUpCheck at h2
  rcases foldl_sweepStep_dispatched _ _ _ _ _ h2 with h3 | h3
  · simp at h3
  · rw [List.map_map] at h3
    obtain ⟨c2, hc2, hceq⟩ := List.mem_map.mp h3
    simp only [Function.comp] at hceq
    have hf := sweepFetch_mem _ _ _ hc2
    have hsch : c2.status = CStatus.scheduled := by
      have := hf.2
      unfold dueFilter at this
      simp at this
      exact this.1
    exact hn c2 hf.1 (by rw [hceq]; exact hi) hsch

theorem sweep_no_redispatch_witness :
    2 ∉ (followUpCheck
      (followUpCheck [exFollowUp2] [exEmailBroker3] 10 (fun _ => none)).camps
      [exEmailBroker3] 10 (fun _ => none)).dispatched :=
  sweep_no_redispatch [exFollowUp2] [exEmailBroker3] [exEmailBroker3] 10 10
    (fun _ => none) (fun _ => none) 2 (by decide)

/-- Claim C4, counterexample: the sweep loop performs no claim step
(no conditional `scheduled → sending` update) before delivering, so two
overlapping invocations whose fetches both run before either one's updates
commit — modelled by `overlappingSweeps`, both computing from the same
initial stores — BOTH dispatch the same due step (id 2). -/
theorem sweep_overlap_double_dispatch_cex :
    (overlappingSweeps [exFollowUp2] [exEmailBroker3] 10 10
      (fun _ => none) (fun _ => none)).fst = [2] ∧
    (overlappingSweeps [exFollowUp2] [exEmailBroker3] 10 10
      (fun _ => none) (fun _ => none)).snd = [2] ∧
    exFollowUp2.status = CStatus.scheduled ∧ exFollowUp2.scheduled_at ≤ 10 := by
  decide
